import Mathlib

/-!
# Verification of the Homey MCP client against its specification

A shallow embedding of the Homey MCP server's Python client
(`homey_client.py`, `client/base.py`, `client/flows.py`, and the tool
handlers) together with proofs of the specified properties.

Python runtime values are modelled by `PyValue` (booleans, integers,
floats as rationals, strings); fallible operations return `Except`;
the HTTP layer is modelled by explicit oracles giving the status code
(or network failure) of each request, and every operation additionally
reports the list of HTTP requests it issued, so that "no I/O happens"
is expressible.
-/

namespace HomeyMCP

/-- A Python runtime value as it appears in capability handling:
`bool`, `int`, `float` (modelled exactly by `ℚ`) or `str`. -/
inductive PyValue where
  | bool (b : Bool)
  | int (n : ℤ)
  | float (q : ℚ)
  | str (s : String)
deriving Repr, DecidableEq

/-- Digits-only parse of a character list: `some` of its value when the
list is a non-empty run of decimal digits, else `none`. -/
def parseDigits (l : List Char) : Option ℕ :=
  if l ≠ [] ∧ l.all (·.isDigit) then
    some (l.foldl (fun a c => 10 * a + (c.toNat - 48)) 0)
  else none

/-- Mantissa of a decimal literal: `digits`, `digits.`, `.digits` or
`digits.digits` (at least one digit overall). -/
def parseMantissa (s : String) : Option ℚ :=
  match s.splitOn "." with
  | [i] => (parseDigits i.toList).map (fun n => (n : ℚ))
  | [i, f] =>
      if i = "" ∧ f = "" then none
      else if i ≠ "" ∧ ¬i.toList.all (·.isDigit) then none
      else if f ≠ "" ∧ ¬f.toList.all (·.isDigit) then none
      else if i = "" then (parseDigits f.toList).map (fun n => (n : ℚ) / 10 ^ f.length)
      else if f = "" then (parseDigits i.toList).map (fun n => (n : ℚ))
      else
        match parseDigits i.toList, parseDigits f.toList with
        | some a, some b => some ((a : ℚ) + (b : ℚ) / 10 ^ f.length)
        | _, _ => none
  | _ => none

/-- Signed integer parse for a float exponent part. -/
def parseExponent (s : String) : Option ℤ :=
  if s.startsWith "-" then (parseDigits (s.drop 1).toList).map (fun n => -(n : ℤ))
  else if s.startsWith "+" then (parseDigits (s.drop 1).toList).map (fun n => (n : ℤ))
  else (parseDigits s.toList).map (fun n => (n : ℤ))

/-- Model of Python `float(str)` for finite decimal literals
(optional sign, decimal mantissa, optional exponent); special forms
such as `inf`, `nan` or underscore separators are treated as
unparseable, which only widens the "raises `ValueError`" case. -/
def parseFloat (s : String) : Option ℚ :=
  let t := s.trim
  let (sgn, body) : ℚ × String :=
    if t.startsWith "-" then (-1, t.drop 1)
    else if t.startsWith "+" then (1, t.drop 1)
    else (1, t)
  match body.toLower.splitOn "e" with
  | [m] => (parseMantissa m).map (fun q => sgn * q)
  | [m, e] =>
      match parseMantissa m, parseExponent e with
      | some q, some x => some (sgn * q * (10 : ℚ) ^ x)
      | _, _ => none
  | _ => none

/-- Model of Python `float(value)`: `none` when `float()` would raise
`ValueError`/`TypeError`.  Python booleans convert as 1/0. -/
def pyFloat (v : PyValue) : Option ℚ :=
  match v with
  | .bool b => some (if b then 1 else 0)
  | .int n => some (n : ℚ)
  | .float q => some q
  | .str s => parseFloat s

/-- The boolean-class capability names (`homey_client.py:200`). -/
def boolCaps : List String :=
  ["onoff", "alarm_battery", "alarm_motion", "alarm_contact", "alarm_smoke",
   "alarm_co", "alarm_water", "alarm_generic"]

/-- The unit-interval-class capability names (`homey_client.py:213`). -/
def rangeCaps : List String :=
  ["dim", "light_hue", "light_saturation", "light_temperature", "volume_set",
   "windowcoverings_set", "windowcoverings_tilt_set"]

/-- The temperature-class capability names (`homey_client.py:228`). -/
def tempCaps : List String := ["target_temperature", "measure_temperature"]

/-- The power/energy-class capability names (`homey_client.py:239`). -/
def powerCaps : List String :=
  ["measure_power", "meter_power", "measure_voltage", "measure_current"]

/-- The percentage-class capability names (`homey_client.py:250`). -/
def percentCaps : List String := ["measure_battery", "measure_humidity"]

/-- Strings Python lowercases to a true boolean (`homey_client.py:204`). -/
def trueStrings : List String := ["true", "1", "on", "yes"]

/-- Strings Python lowercases to a false boolean (`homey_client.py:206`). -/
def falseStrings : List String := ["false", "0", "off", "no"]

/-- Model of Python `str.lower()`; ASCII case folding, which is all the
capability word lists need. -/
def strLower (s : String) : String := String.mk (s.data.map Char.toLower)

/-- The boolean-class block of `validate_capability_value`
(`homey_client.py:199-210`): native booleans pass through, strings go
through the case-insensitive word lists, integers truthy-cast,
everything else is invalid. -/
def validateBool (capability : String) (value : PyValue) : Bool × PyValue × String :=
  match value with
  | .bool b => (true, .bool b, "")
  | .str s =>
      if strLower s ∈ trueStrings then (true, .bool true, "")
      else if strLower s ∈ falseStrings then (true, .bool false, "")
      else (false, value, "Capability " ++ capability ++ " expects boolean value")
  | .int n => (true, .bool (n != 0), "")
  | .float _ => (false, value, "Capability " ++ capability ++ " expects boolean value")

/-- The unit-interval block of `validate_capability_value`
(`homey_client.py:212-225`): parse as float, accept `[0,1]` as-is,
divide `(1,100]` by 100 with a note, otherwise invalid. -/
def validateRange (capability : String) (value : PyValue) : Bool × PyValue × String :=
  match pyFloat value with
  | some q =>
      if 0 ≤ q ∧ q ≤ 1 then (true, .float q, "")
      else if 0 ≤ q ∧ q ≤ 100 then
        (true, .float (q / 100),
         "Converted " ++ toString q ++ "% to " ++ toString (q / 100))
      else (false, value,
        "Capability " ++ capability ++ " must be between 0.0-1.0 (or 0-100%)")
  | none => (false, value, "Capability " ++ capability ++ " expects numeric value")

/-- The temperature block of `validate_capability_value`
(`homey_client.py:227-236`). -/
def validateTemp (value : PyValue) : Bool × PyValue × String :=
  match pyFloat value with
  | some t =>
      if -50 ≤ t ∧ t ≤ 100 then (true, .float t, "")
      else (false, value, "Temperature " ++ toString t ++ "°C seems unrealistic")
  | none => (false, value, "Temperature must be numeric")

/-- The power/energy block of `validate_capability_value`
(`homey_client.py:238-247`). -/
def validatePower (capability : String) (value : PyValue) : Bool × PyValue × String :=
  match pyFloat value with
  | some p =>
      if 0 ≤ p then (true, .float p, "")
      else (false, value, "Power/energy cannot be negative")
  | none => (false, value, "Capability " ++ capability ++ " expects numeric value")

/-- The percentage block of `validate_capability_value`
(`homey_client.py:249-258`). -/
def validatePercent (capability : String) (value : PyValue) : Bool × PyValue × String :=
  match pyFloat value with
  | some p =>
      if 0 ≤ p ∧ p ≤ 100 then (true, .float p, "")
      else (false, value, "Capability " ++ capability ++ " must be between 0-100%")
  | none => (false, value, "Capability " ++ capability ++ " expects numeric value")

/-- The enum block of `validate_capability_value`
(`homey_client.py:260-264`): `light_mode` accepts exactly the strings
`"color"` and `"temperature"`. -/
def validateLightMode (capability : String) (value : PyValue) : Bool × PyValue × String :=
  if value = .str "color" ∨ value = .str "temperature" then (true, value, "")
  else (false, value, "Capability " ++ capability ++ " has invalid value")

/-- Embedding of `HomeyAPIClient.validate_capability_value` (`homey_client.py:191-267`):
dispatch on the capability-name class, defaulting to accept-as-is for
unknown capabilities. -/
def validate_capability_value (capability : String) (value : PyValue) :
    Bool × PyValue × String :=
  if capability ∈ boolCaps then validateBool capability value
  else if capability ∈ rangeCaps then validateRange capability value
  else if capability ∈ tempCaps then validateTemp value
  else if capability ∈ powerCaps then validatePower capability value
  else if capability ∈ percentCaps then validatePercent capability value
  else if capability ∈ ["light_mode"] then validateLightMode capability value
  else (true, value, "")

/-! ## The HTTP client core

State, config and HTTP-oracle embedding of `HomeyAPIClient`
(`homey_client.py` / `client/base.py`).  Each operation takes the
config, the mutable client state and an oracle describing how the hub
answers, and returns its result (`Except` for a raised exception), the
successor state and the list of HTTP requests it issued. -/

/-- Modelled from the spec: the environment-sourced process
configuration (`config.py` is not among the sources; the fields are
the ones the client reads — hub address, token, request timeout,
device-cache TTL and the offline/demo mode flags). -/
structure HomeyMCPConfig where
  homey_local_address : String
  homey_local_token : String
  request_timeout : ℚ
  cache_ttl : ℚ
  offline_mode : Bool
  demo_mode : Bool
deriving Repr, DecidableEq

/-- One capability entry of a device's `capabilitiesObj`. -/
structure CapabilityState where
  value : PyValue
  title : String
deriving Repr, DecidableEq

/-- A device record as the client consumes it (`capabilitiesObj` keyed
by capability name, association list in hub order). -/
structure Device where
  name : String
  devClass : String
  zoneName : String
  available : Bool
  capabilitiesObj : List (String × CapabilityState)
deriving Repr, DecidableEq

/-- The device map returned by the hub / the demo fixture, keyed by
device id. -/
def DeviceMap : Type := List (String × Device)

instance : DecidableEq DeviceMap := by unfold DeviceMap; infer_instance

/-- The client's mutable fields `_device_cache` and `_cache_timestamp`
(`homey_client.py:17-18`); the timestamp is seconds as returned by
`time.time()`. -/
structure ClientState where
  device_cache : DeviceMap
  cache_timestamp : ℚ
deriving DecidableEq

/-- HTTP verb of an issued request. -/
inductive Method where
  | get
  | put
  | post
deriving Repr, DecidableEq

/-- One HTTP request issued by the client: verb, path, optional JSON
body value. -/
structure HttpRequest where
  method : Method
  path : String
  body : Option PyValue
deriving Repr, DecidableEq

/-- Success statuses `200 ≤ code < 300`, the codes `httpx` counts as success (anything
else makes `raise_for_status` raise `HTTPStatusError`). -/
def is2xx (code : ℕ) : Bool := 200 ≤ code && code < 300

/-- The assignments `self.config.offline_mode = True; self.config.demo_mode = True`
(the auto-degrade assignments in `connect`). -/
def degradeToDemo (cfg : HomeyMCPConfig) : HomeyMCPConfig :=
  { cfg with offline_mode := true, demo_mode := true }

/-- Outcome of the liveness probe `GET /api/manager/system` as `connect`
observes it: a completed response with a status code, an
`httpx.ConnectTimeout`, or any other exception. -/
inductive ProbeOutcome where
  | status (code : ℕ)
  | connectTimeout
  | otherExc
deriving Repr, DecidableEq

/-- Embedding of `HomeyAPIClient.connect` (`homey_client.py:27-79` =
`client/base.py:37-89`): no-op in offline mode; otherwise probes
`GET /api/manager/system`.  2xx connects; `ConnectTimeout`, HTTP 401
and any non-`HTTPStatusError` exception silently degrade to demo mode;
an `HTTPStatusError` with any other code is re-raised (the raised
status code is the `Except.error` payload). -/
def connect (cfg : HomeyMCPConfig) (probe : ProbeOutcome) :
    Except ℕ HomeyMCPConfig × List HttpRequest :=
  if cfg.offline_mode then (.ok cfg, [])
  else
    let reqs := [⟨.get, "/api/manager/system", none⟩]
    match probe with
    | .status code =>
        if is2xx code then (.ok cfg, reqs)
        else if code = 401 then (.ok (degradeToDemo cfg), reqs)
        else (.error code, reqs)
    | .connectTimeout => (.ok (degradeToDemo cfg), reqs)
    | .otherExc => (.ok (degradeToDemo cfg), reqs)

/-- The demo-mode device fixture of `get_devices`
(`homey_client.py:92-158`). -/
def demoDevices : DeviceMap :=
  [ ("light1",
     { name := "Living Room Lamp", devClass := "light", zoneName := "Living Room",
       available := true,
       capabilitiesObj :=
         [ ("onoff", ⟨.bool false, "On/Off"⟩),
           ("dim", ⟨.float (8 / 10), "Brightness"⟩),
           ("light_hue", ⟨.float (2 / 10), "Color"⟩),
           ("light_saturation", ⟨.float (9 / 10), "Saturation"⟩),
           ("light_temperature", ⟨.float (5 / 10), "Color Temperature"⟩),
           ("light_mode", ⟨.str "color", "Mode"⟩) ] }),
    ("light2",
     { name := "Kitchen Spots", devClass := "light", zoneName := "Kitchen",
       available := true,
       capabilitiesObj :=
         [ ("onoff", ⟨.bool true, "On/Off"⟩),
           ("dim", ⟨.float (6 / 10), "Brightness"⟩),
           ("light_temperature", ⟨.float (3 / 10), "Color Temperature"⟩) ] }),
    ("sensor1",
     { name := "Temperature Sensor", devClass := "sensor", zoneName := "Bedroom",
       available := true,
       capabilitiesObj :=
         [ ("measure_temperature", ⟨.float (215 / 10), "Temperature"⟩),
           ("measure_humidity", ⟨.float (652 / 10), "Humidity"⟩),
           ("measure_battery", ⟨.int 85, "Battery"⟩),
           ("alarm_battery", ⟨.bool false, "Battery Low"⟩) ] }),
    ("thermostat1",
     { name := "Living Room Thermostat", devClass := "thermostat",
       zoneName := "Living Room", available := true,
       capabilitiesObj :=
         [ ("target_temperature", ⟨.float 20, "Target Temperature"⟩),
           ("measure_temperature", ⟨.float (192 / 10), "Current Temperature"⟩),
           ("measure_battery", ⟨.int 92, "Battery"⟩) ] }),
    ("socket1",
     { name := "Desk Socket", devClass := "socket", zoneName := "Office",
       available := true,
       capabilitiesObj :=
         [ ("onoff", ⟨.bool true, "On/Off"⟩),
           ("measure_power", ⟨.float (452 / 10), "Power"⟩),
           ("meter_power", ⟨.float (234 / 100), "Energy"⟩) ] }) ]

/-- Embedding of `HomeyAPIClient.get_devices` (`homey_client.py:86-180`): demo mode
returns the fixture without touching the cache; a fresh non-empty cache
(age strictly below the TTL) is returned without I/O; otherwise the
trailing-slash list endpoint is fetched and both cache and timestamp
are replaced.  `fetch` is the (parsed) outcome of that GET. -/
def get_devices (cfg : HomeyMCPConfig) (st : ClientState) (now : ℚ)
    (fetch : Except String DeviceMap) :
    Except String DeviceMap × ClientState × List HttpRequest :=
  if cfg.offline_mode || cfg.demo_mode then
    (.ok demoDevices, st, [])
  else if st.device_cache ≠ [] ∧ now - st.cache_timestamp < cfg.cache_ttl then
    (.ok st.device_cache, st, [])
  else
    let reqs := [⟨.get, "/api/manager/devices/device/", none⟩]
    match fetch with
    | .ok devices => (.ok devices, ⟨devices, now⟩, reqs)
    | .error e => (.error e, st, reqs)

/-- Embedding of `HomeyAPIClient.get_device` (`homey_client.py:182-189`): delegates
to `get_devices`, then raises `ValueError` when the id is absent. -/
def get_device (cfg : HomeyMCPConfig) (st : ClientState) (now : ℚ)
    (fetch : Except String DeviceMap) (device_id : String) :
    Except String Device × ClientState × List HttpRequest :=
  match get_devices cfg st now fetch with
  | (.ok devices, st', reqs) =>
      match devices.lookup device_id with
      | some d => (.ok d, st', reqs)
      | none => (.error ("Device " ++ device_id ++ " not found"), st', reqs)
  | (.error e, st', reqs) => (.error e, st', reqs)

/-- The in-place update
`_device_cache[device_id]["capabilitiesObj"][capability]["value"] = v`. -/
def patchDevice (d : Device) (capability : String) (v : PyValue) : Device :=
  { d with capabilitiesObj :=
      d.capabilitiesObj.map fun c =>
        if c.1 = capability then (c.1, { c.2 with value := v }) else c }

/-- The guarded cache patch after a successful capability write
(`homey_client.py:301-304`): only when the device is cached and already
carries the capability. -/
def patchCache (cache : DeviceMap) (device_id capability : String) (v : PyValue) :
    DeviceMap :=
  match cache.lookup device_id with
  | some d =>
      if (d.capabilitiesObj.lookup capability).isSome then
        cache.map fun p =>
          if p.1 = device_id then (p.1, patchDevice p.2 capability v) else p
      else cache
  | none => cache

/-- Hub answers for a capability write: the status of the `PUT` and the
status of the compatibility `POST` (consulted only when the `PUT`
answers 405 Method Not Allowed). -/
structure SetOracle where
  putStatus : ℕ
  postStatus : ℕ
deriving Repr, DecidableEq

/-- The status code `raise_for_status` finally sees in
`set_capability_value`: the `POST` fallback's when the `PUT` answered
405, the `PUT`'s otherwise. -/
def SetOracle.finalStatus (o : SetOracle) : ℕ :=
  if o.putStatus = 405 then o.postStatus else o.putStatus

/-- Embedding of `HomeyAPIClient.set_capability_value` (`homey_client.py:269-313`):
validate first (raising `ValueError` on rejection before any I/O);
demo mode returns success without I/O; otherwise `PUT` the validated
value to the trailing-slash capability endpoint, retrying once with
`POST` on 405, and on a 2xx patch the cached capability value. -/
def set_capability_value (cfg : HomeyMCPConfig) (st : ClientState)
    (device_id capability : String) (value : PyValue) (oracle : SetOracle) :
    Except String Bool × ClientState × List HttpRequest :=
  let (is_valid, converted_value, message) := validate_capability_value capability value
  if is_valid = false then
    (.error ("Invalid capability value: " ++ message), st, [])
  else if cfg.offline_mode || cfg.demo_mode then
    (.ok true, st, [])
  else
    let endpoint :=
      "/api/manager/devices/device/" ++ device_id ++ "/capability/" ++ capability ++ "/"
    let reqs :=
      if oracle.putStatus = 405 then
        [⟨.put, endpoint, some converted_value⟩, ⟨.post, endpoint, some converted_value⟩]
      else [⟨.put, endpoint, some converted_value⟩]
    if is2xx oracle.finalStatus then
      (.ok true,
       ⟨patchCache st.device_cache device_id capability converted_value,
        st.cache_timestamp⟩,
       reqs)
    else
      (.error ("HTTP " ++ toString oracle.finalStatus), st, reqs)

/-- Outcome of one `POST` inside the flow-trigger loop: a completed
response with a status code, or a non-HTTP exception raised by the
request itself. -/
inductive PostOutcome where
  | status (code : ℕ)
  | netExc
deriving Repr, DecidableEq

/-- The exception `trigger_flow` can raise: an `HTTPStatusError` for a
path, a non-HTTP failure for a path, or the dead-code "all endpoints
failed" fallback. -/
inductive FlowError where
  | httpStatus (path : String) (code : ℕ)
  | netFail (path : String)
  | allFailed
deriving Repr, DecidableEq

/-- The four endpoint variants `trigger_flow` probes, in program order
(`homey_client.py:349-354` = `client/flows.py:47-52`). -/
def flowEndpoints (flow_id : String) : List String :=
  [ "/api/manager/flow/flow/" ++ flow_id ++ "/trigger",
    "/api/manager/flow/flow/" ++ flow_id ++ "/start",
    "/api/manager/flow/flow/" ++ flow_id ++ "/run",
    "/api/manager/flow/flow/" ++ flow_id ++ "/" ]

/-- The variant-probing loop of `trigger_flow`
(`homey_client.py:356-384`): first 2xx returns success; a 404 records
the error and moves on; any other HTTP status error is re-raised at
once; a non-HTTP exception records the error and moves on; when the
list is exhausted the last recorded error (or the generic fallback) is
raised.  Also returns the paths actually posted to, in order. -/
def tryEndpoints (oracle : String → PostOutcome) :
    List String → Option FlowError → Except FlowError Bool × List String
  | [], last =>
      match last with
      | some e => (.error e, [])
      | none => (.error .allFailed, [])
  | e :: rest, _last =>
      match oracle e with
      | .status code =>
          if is2xx code then (.ok true, [e])
          else if code = 404 then
            let r := tryEndpoints oracle rest (some (.httpStatus e 404))
            (r.1, e :: r.2)
          else (.error (.httpStatus e code), [e])
      | .netExc =>
          let r := tryEndpoints oracle rest (some (.netFail e))
          (r.1, e :: r.2)

/-- Embedding of `HomeyAPIClient.trigger_flow` (`homey_client.py:340-388` =
`client/flows.py:38-86`): demo mode short-circuits to success without
I/O; otherwise the four endpoint variants are probed in order. -/
def trigger_flow (cfg : HomeyMCPConfig) (flow_id : String)
    (oracle : String → PostOutcome) : Except FlowError Bool × List String :=
  if cfg.offline_mode || cfg.demo_mode then (.ok true, [])
  else tryEndpoints oracle (flowEndpoints flow_id) none

/-! ## Tool layer

The two tool handlers the error-boundary claim cites:
`DeviceControlTools.handle_get_devices` (`tools/device/control.py:93-119`)
and `FlowManagementTools.handle_trigger_flow`
(`tools/flow_management.py:77-98`).  Each underlying client call (and
the fallible argument lookup) appears as an `Except`/`Option`
parameter; the handler itself is a total function into a list of
`TextContent`, which is exactly the "nothing escapes the tool layer"
boundary. -/

/-- An MCP `TextContent` block. -/
structure TextContent where
  type : String
  text : String
deriving Repr, DecidableEq

/-- A flow record as `handle_trigger_flow` consumes it; `name` is
optional because the handler reads it with `.get("name", flow_id)`. -/
structure Flow where
  name : Option String
  enabled : Bool
  broken : Bool
deriving Repr, DecidableEq

/-- Rendering of one `device_info` entry of `handle_get_devices`
(id, name, class, zone, capability names, availability); stands in for
the `json.dumps` pretty-printing, which the claims do not constrain. -/
def formatDeviceInfo (p : String × Device) : String :=
  "- " ++ p.1 ++ " | " ++ p.2.name ++ " | " ++ p.2.devClass ++ " | "
    ++ p.2.zoneName ++ " | " ++ String.intercalate ","
        (p.2.capabilitiesObj.map (·.1))
    ++ " | " ++ (if p.2.available then "available" else "unavailable")

/-- Embedding of `DeviceControlTools.handle_get_devices`
(`tools/device/control.py:93-119`): formats the device listing; any
exception from the client call is caught and rendered as a prefixed
error text. -/
def handle_get_devices (devicesRes : Except String DeviceMap) : List TextContent :=
  match devicesRes with
  | .error e => [⟨"text", "Error getting devices: " ++ e⟩]
  | .ok devices =>
      [⟨"text",
        "Found " ++ toString devices.length ++ " devices:\n\n"
          ++ String.intercalate "\n" (devices.map formatDeviceInfo)⟩]

/-- Embedding of `FlowManagementTools.handle_trigger_flow`
(`tools/flow_management.py:77-98`): looks up the `flow_id` argument
(a missing key raises `KeyError`, caught at the boundary), fetches the
flows for the name, triggers, and catches every exception into a
`❌`-prefixed text. -/
def handle_trigger_flow (arguments : List (String × String))
    (flowsRes : Except String (List (String × Flow)))
    (triggerRes : Except String Bool) : List TextContent :=
  match arguments.lookup "flow_id" with
  | none => [⟨"text", "❌ Fout bij starten flow: " ++ "KeyError: flow_id"⟩]
  | some flow_id =>
      match flowsRes with
      | .error e => [⟨"text", "❌ Fout bij starten flow: " ++ e⟩]
      | .ok flows =>
          match flows.lookup flow_id with
          | none =>
              [⟨"text", "❌ Flow met ID '" ++ flow_id ++ "' niet gevonden"⟩]
          | some flow =>
              let flow_name := flow.name.getD flow_id
              match triggerRes with
              | .error e => [⟨"text", "❌ Fout bij starten flow: " ++ e⟩]
              | .ok true =>
                  [⟨"text", "✅ Flow '" ++ flow_name ++ "' succesvol gestart"⟩]
              | .ok false =>
                  [⟨"text", "❌ Kon flow '" ++ flow_name ++ "' niet starten"⟩]

/-! ## Concrete values used by the witnesses -/

/-- A live-mode configuration (TTL 60 s, the spec's cache example). -/
def cfgLive : HomeyMCPConfig :=
  { homey_local_address := "192.168.1.100", homey_local_token := "token",
    request_timeout := 30, cache_ttl := 60,
    offline_mode := false, demo_mode := false }

/-- The same configuration with the demo flag set. -/
def cfgDemo : HomeyMCPConfig := { cfgLive with demo_mode := true }

/-- A client state with an empty device cache. -/
def stEmpty : ClientState := ⟨[], 0⟩

/-- A client state whose cache holds the demo fixture, stamped at 0 s. -/
def stDemoCache : ClientState := ⟨demoDevices, 0⟩

/-- The rational one half, given in lowest terms so that kernel
reduction never has to normalize a fraction. -/
def oneHalf : ℚ := ⟨1, 2, by norm_num, Nat.coprime_one_left 2⟩

/-! ## Validator lemmas -/

theorem append_ne_empty (s t : String) (hs : s ≠ "") : s ++ t ≠ "" := by
  intro h
  apply hs
  rw [String.ext_iff] at h ⊢
  rcases List.append_eq_nil.mp (by simpa using h) with ⟨h1, -⟩
  simpa using h1

theorem validate_eq_range (cap : String) (hcap : cap ∈ rangeCaps) (v : PyValue) :
    validate_capability_value cap v = validateRange cap v := by
  fin_cases hcap <;> rfl

theorem validate_eq_bool (cap : String) (hcap : cap ∈ boolCaps) (v : PyValue) :
    validate_capability_value cap v = validateBool cap v := by
  fin_cases hcap <;> rfl

/-- C3: for a unit-interval-class capability, a parsed value in `[0,1]`
is accepted as-is with no note; a parsed value in `(1,100]` is accepted
as `value/100` with a non-empty note; any other parsed value, and any
unparseable value, is rejected with the original value and a non-empty
error note. -/
theorem range_class_validation (cap : String) (hcap : cap ∈ rangeCaps) (v : PyValue) :
    (∀ q : ℚ, pyFloat v = some q → 0 ≤ q → q ≤ 1 →
        validate_capability_value cap v = (true, .float q, "")) ∧
    (∀ q : ℚ, pyFloat v = some q → 1 < q → q ≤ 100 →
        ∃ note, validate_capability_value cap v = (true, .float (q / 100), note) ∧
          note ≠ "") ∧
    (∀ q : ℚ, pyFloat v = some q → ¬(0 ≤ q ∧ q ≤ 100) →
        ∃ msg, validate_capability_value cap v = (false, v, msg) ∧ msg ≠ "") ∧
    (pyFloat v = none →
        ∃ msg, validate_capability_value cap v = (false, v, msg) ∧ msg ≠ "") := by
  refine ⟨?_, ?_, ?_, ?_⟩
  · intro q hq h0 h1
    rw [validate_eq_range cap hcap v]
    unfold validateRange
    simp only [hq]
    rw [if_pos ⟨h0, h1⟩]
  · intro q hq h1 h100
    rw [validate_eq_range cap hcap v]
    unfold validateRange
    simp only [hq]
    have hA : ¬(0 ≤ q ∧ q ≤ 1) := by rintro ⟨-, h⟩; linarith
    have hB : 0 ≤ q ∧ q ≤ 100 := ⟨by linarith, h100⟩
    rw [if_neg hA, if_pos hB]
    refine ⟨_, rfl, ?_⟩
    exact append_ne_empty (("Converted " ++ toString q) ++ "% to ") (toString (q / 100))
      (append_ne_empty ("Converted " ++ toString q) "% to "
        (append_ne_empty "Converted " (toString q) (by decide)))
  · intro q hq hout
    rw [validate_eq_range cap hcap v]
    unfold validateRange
    simp only [hq]
    have hA : ¬(0 ≤ q ∧ q ≤ 1) := by rintro ⟨h0, h⟩; exact hout ⟨h0, by linarith⟩
    rw [if_neg hA, if_neg hout]
    exact ⟨_, rfl, append_ne_empty ("Capability " ++ cap)
      " must be between 0.0-1.0 (or 0-100%)"
      (append_ne_empty "Capability " cap (by decide))⟩
  · intro hq
    rw [validate_eq_range cap hcap v]
    unfold validateRange
    simp only [hq]
    exact ⟨_, rfl, append_ne_empty ("Capability " ++ cap) " expects numeric value"
      (append_ne_empty "Capability " cap (by decide))⟩

/-- Witness for `range_class_validation`: the three behaviors of the
`dim` capability at 50, 0.5 and 150. -/
theorem range_class_validation_witness :
    (∃ note, validate_capability_value "dim" (.int 50) =
        (true, .float (50 / 100), note) ∧ note ≠ "") ∧
    validate_capability_value "dim" (.float (1 / 2)) = (true, .float (1 / 2), "") ∧
    (∃ msg, validate_capability_value "dim" (.int 150) =
        (false, .int 150, msg) ∧ msg ≠ "") :=
  ⟨(range_class_validation "dim" (by decide) (.int 50)).2.1 50 (by norm_num [pyFloat])
      (by norm_num) (by norm_num),
   (range_class_validation "dim" (by decide) (.float (1 / 2))).1 (1 / 2) rfl
      (by norm_num) (by norm_num),
   (range_class_validation "dim" (by decide) (.int 150)).2.2.1 150 (by norm_num [pyFloat])
      (by norm_num)⟩

/-- C7: for a boolean-class capability, native booleans pass through,
integers are truthy-cast, the four case-insensitive true/false word
forms coerce, and every other value (floats, other strings) is rejected
with the original value. -/
theorem bool_class_validation (cap : String) (hcap : cap ∈ boolCaps) :
    (∀ b, validate_capability_value cap (.bool b) = (true, .bool b, "")) ∧
    (∀ n : ℤ, validate_capability_value cap (.int n) = (true, .bool (n != 0), "")) ∧
    (∀ s, strLower s ∈ trueStrings →
        validate_capability_value cap (.str s) = (true, .bool true, "")) ∧
    (∀ s, strLower s ∈ falseStrings →
        validate_capability_value cap (.str s) = (true, .bool false, "")) ∧
    (∀ s, strLower s ∉ trueStrings → strLower s ∉ falseStrings →
        ∃ msg, validate_capability_value cap (.str s) = (false, .str s, msg) ∧
          msg ≠ "") ∧
    (∀ q : ℚ, ∃ msg,
        validate_capability_value cap (.float q) = (false, .float q, msg) ∧
          msg ≠ "") := by
  have hb : ∀ v, validate_capability_value cap v = validateBool cap v :=
    validate_eq_bool cap hcap
  have hdisj : ∀ x : String, x ∈ falseStrings → x ∉ trueStrings := by
    intro x hx
    fin_cases hx <;> decide
  have hmsg : "Capability " ++ cap ++ " expects boolean value" ≠ "" :=
    append_ne_empty ("Capability " ++ cap) " expects boolean value"
      (append_ne_empty "Capability " cap (by decide))
  refine ⟨?_, ?_, ?_, ?_, ?_, ?_⟩
  · intro b; rw [hb]; rfl
  · intro n; rw [hb]; rfl
  · intro s hs
    rw [hb]
    simp only [validateBool]
    rw [if_pos hs]
  · intro s hs
    rw [hb]
    simp only [validateBool]
    rw [if_neg (hdisj (strLower s) hs), if_pos hs]
  · intro s h1 h2
    rw [hb]
    simp only [validateBool]
    rw [if_neg h1, if_neg h2]
    exact ⟨_, rfl, hmsg⟩
  · intro q
    rw [hb]
    exact ⟨_, rfl, hmsg⟩

/-- Witness for `bool_class_validation`: `onoff` coerces `"ON"` to
true and rejects `"banana"`. -/
theorem bool_class_validation_witness :
    validate_capability_value "onoff" (.str "ON") = (true, .bool true, "") ∧
    (∃ msg, validate_capability_value "onoff" (.str "banana") =
        (false, .str "banana", msg) ∧ msg ≠ "") :=
  ⟨(bool_class_validation "onoff" (by decide)).2.2.1 "ON" (by decide),
   (bool_class_validation "onoff" (by decide)).2.2.2.2.1 "banana"
      (by decide) (by decide)⟩

theorem validateBool_idem (cap : String) (v n : PyValue) (note : String)
    (h : validateBool cap v = (true, n, note)) :
    validateBool cap n = (true, n, "") := by
  cases v with
  | bool b =>
      simp only [validateBool, Prod.mk.injEq, true_and] at h
      rw [← h.1]
      rfl
  | str s =>
      simp only [validateBool] at h
      split_ifs at h with h1 h2
      · simp only [Prod.mk.injEq, true_and] at h
        rw [← h.1]
        rfl
      · simp only [Prod.mk.injEq, true_and] at h
        rw [← h.1]
        rfl
      · simp at h
  | int m =>
      simp only [validateBool, Prod.mk.injEq, true_and] at h
      rw [← h.1]
      rfl
  | float q => simp [validateBool] at h

theorem validateRange_idem (cap : String) (v n : PyValue) (note : String)
    (h : validateRange cap v = (true, n, note)) :
    validateRange cap n = (true, n, "") := by
  cases hf : pyFloat v with
  | none => simp [validateRange, hf] at h
  | some q =>
      simp only [validateRange, hf] at h
      split_ifs at h with h1 h2
      · simp only [Prod.mk.injEq, true_and] at h
        rw [← h.1]
        simp only [validateRange, pyFloat]
        rw [if_pos h1]
      · simp only [Prod.mk.injEq, true_and] at h
        rw [← h.1]
        simp only [validateRange, pyFloat]
        rw [if_pos ⟨div_nonneg h2.1 (by norm_num), (div_le_one (by norm_num)).mpr h2.2⟩]
      · simp at h

theorem validateTemp_idem (v n : PyValue) (note : String)
    (h : validateTemp v = (true, n, note)) :
    validateTemp n = (true, n, "") := by
  cases hf : pyFloat v with
  | none => simp [validateTemp, hf] at h
  | some t =>
      simp only [validateTemp, hf] at h
      split_ifs at h with h1
      · simp only [Prod.mk.injEq, true_and] at h
        rw [← h.1]
        simp only [validateTemp, pyFloat]
        rw [if_pos h1]
      · simp at h

theorem validatePower_idem (cap : String) (v n : PyValue) (note : String)
    (h : validatePower cap v = (true, n, note)) :
    validatePower cap n = (true, n, "") := by
  cases hf : pyFloat v with
  | none => simp [validatePower, hf] at h
  | some p =>
      simp only [validatePower, hf] at h
      split_ifs at h with h1
      · simp only [Prod.mk.injEq, true_and] at h
        rw [← h.1]
        simp only [validatePower, pyFloat]
        rw [if_pos h1]
      · simp at h

theorem validatePercent_idem (cap : String) (v n : PyValue) (note : String)
    (h : validatePercent cap v = (true, n, note)) :
    validatePercent cap n = (true, n, "") := by
  cases hf : pyFloat v with
  | none => simp [validatePercent, hf] at h
  | some p =>
      simp only [validatePercent, hf] at h
      split_ifs at h with h1
      · simp only [Prod.mk.injEq, true_and] at h
        rw [← h.1]
        simp only [validatePercent, pyFloat]
        rw [if_pos h1]
      · simp at h

theorem validateLightMode_idem (cap : String) (v n : PyValue) (note : String)
    (h : validateLightMode cap v = (true, n, note)) :
    validateLightMode cap n = (true, n, "") := by
  unfold validateLightMode at h
  split_ifs at h with h1
  · simp only [Prod.mk.injEq, true_and] at h
    obtain ⟨hn, -⟩ := h
    subst hn
    unfold validateLightMode
    rw [if_pos h1]
  · simp at h

/-- C8: the validator is idempotent on its own output — whenever it
accepts a raw value with normalized value `n`, validating `n` again
for the same capability accepts `n` unchanged with an empty note. -/
theorem validator_idempotent (cap : String) (v n : PyValue) (note : String)
    (h : validate_capability_value cap v = (true, n, note)) :
    validate_capability_value cap n = (true, n, "") := by
  unfold validate_capability_value at h ⊢
  split_ifs at h ⊢
  · exact validateBool_idem cap v n note h
  · exact validateRange_idem cap v n note h
  · exact validateTemp_idem v n note h
  · exact validatePower_idem cap v n note h
  · exact validatePercent_idem cap v n note h
  · exact validateLightMode_idem cap v n note h
  · simp only [Prod.mk.injEq, true_and] at h
    rw [← h.1]

/-- Witness for `validator_idempotent`: re-validating the boolean the
validator produced for `("onoff", "ON")` changes nothing. -/
theorem validator_idempotent_witness :
    validate_capability_value "onoff" (.bool true) = (true, .bool true, "") :=
  validator_idempotent "onoff" (.str "ON") (.bool true) "" (by decide)

/-! ## Connect (C1) -/

/-- C1 counterexample: with offline mode unset, a liveness probe
answering HTTP 500 — an exception that is neither a connect timeout
nor a 401 — makes `connect` raise (propagate the `HTTPStatusError`)
instead of degrading to demo mode, so "any other exception" does not
degrade. -/
theorem connect_http500_raises :
    (connect cfgLive (.status 500)).1 = .error 500 := rfl

/-- C1 (amended): with offline mode unset, a connect timeout, an
HTTP 401, or any exception that is not an HTTP status error makes
`connect` return normally with both `offline_mode` and `demo_mode`
flipped to true; an HTTP status error with any other non-2xx code is
raised. -/
theorem connect_degrade_policy (cfg : HomeyMCPConfig) (probe : ProbeOutcome)
    (hoff : cfg.offline_mode = false) :
    ((probe = .connectTimeout ∨ probe = .otherExc ∨ probe = .status 401) →
      connect cfg probe =
        (.ok (degradeToDemo cfg), [⟨.get, "/api/manager/system", none⟩]) ∧
      (degradeToDemo cfg).offline_mode = true ∧
      (degradeToDemo cfg).demo_mode = true) ∧
    (∀ code, probe = .status code → is2xx code = false → code ≠ 401 →
      connect cfg probe = (.error code, [⟨.get, "/api/manager/system", none⟩])) := by
  constructor
  · rintro (rfl | rfl | rfl)
    · exact ⟨by simp [connect, hoff], rfl, rfl⟩
    · exact ⟨by simp [connect, hoff], rfl, rfl⟩
    · refine ⟨?_, rfl, rfl⟩
      norm_num [connect, hoff, is2xx]
  · rintro code rfl h2 h401
    simp only [connect, hoff, Bool.false_eq_true, if_false]
    rw [if_neg (by simp [h2]), if_neg h401]

/-- Witness for `connect_degrade_policy`: a connect timeout against the
live config degrades to demo mode. -/
theorem connect_degrade_policy_witness :
    connect cfgLive .connectTimeout =
      (.ok (degradeToDemo cfgLive), [⟨.get, "/api/manager/system", none⟩]) ∧
    (degradeToDemo cfgLive).offline_mode = true ∧
    (degradeToDemo cfgLive).demo_mode = true :=
  (connect_degrade_policy cfgLive .connectTimeout rfl).1 (Or.inl rfl)

/-! ## Device cache (C5, C10) -/

theorem get_devices_fresh_cache (cfg : HomeyMCPConfig) (st : ClientState)
    (now : ℚ) (fetch : Except String DeviceMap)
    (hoff : cfg.offline_mode = false) (hdemo : cfg.demo_mode = false)
    (h1 : st.device_cache ≠ []) (h2 : now - st.cache_timestamp < cfg.cache_ttl) :
    get_devices cfg st now fetch = (.ok st.device_cache, st, []) := by
  unfold get_devices
  rw [if_neg (by simp [hoff, hdemo]), if_pos ⟨h1, h2⟩]

/-- C5: in live mode, a non-empty cache younger than the TTL is
returned without any HTTP request; otherwise the trailing-slash device
list endpoint is fetched and cache and timestamp are both replaced by
the response. -/
theorem get_devices_cache_policy (cfg : HomeyMCPConfig) (st : ClientState)
    (now : ℚ) (fetch : Except String DeviceMap)
    (hoff : cfg.offline_mode = false) (hdemo : cfg.demo_mode = false) :
    (st.device_cache ≠ [] → now - st.cache_timestamp < cfg.cache_ttl →
      get_devices cfg st now fetch = (.ok st.device_cache, st, [])) ∧
    (∀ m, ¬(st.device_cache ≠ [] ∧ now - st.cache_timestamp < cfg.cache_ttl) →
      fetch = .ok m →
      get_devices cfg st now fetch =
        (.ok m, ⟨m, now⟩, [⟨.get, "/api/manager/devices/device/", none⟩])) := by
  constructor
  · exact fun h1 h2 => get_devices_fresh_cache cfg st now fetch hoff hdemo h1 h2
  · intro m hstale hfetch
    unfold get_devices
    rw [if_neg (by simp [hoff, hdemo]), if_neg hstale, hfetch]

/-- Witness for `get_devices_cache_policy`: with TTL 60 s and a cache
stamped at 0 s, a read at 30 s returns the cached map with no request,
and a read at 61 s replaces cache and timestamp from a fresh fetch. -/
theorem get_devices_cache_policy_witness :
    get_devices cfgLive stDemoCache 30 (.ok []) =
      (.ok stDemoCache.device_cache, stDemoCache, []) ∧
    get_devices cfgLive stDemoCache 61 (.ok demoDevices) =
      (.ok demoDevices, ⟨demoDevices, 61⟩,
       [⟨.get, "/api/manager/devices/device/", none⟩]) :=
  ⟨(get_devices_cache_policy cfgLive stDemoCache 30 (.ok []) rfl rfl).1
      (by decide) (by norm_num [stDemoCache, cfgLive]),
   (get_devices_cache_policy cfgLive stDemoCache 61 (.ok demoDevices) rfl rfl).2
      demoDevices (by rintro ⟨-, h⟩; norm_num [stDemoCache, cfgLive] at h) rfl⟩

/-- C10: in demo/offline mode the client state is inert — `get_devices`
returns the fixture map on every call without reading or writing the
cache, an accepted `set_capability_value` returns success without
patching anything, and therefore a demo-mode write is invisible to
every subsequent `get_devices`/`get_device`. -/
theorem demo_mode_state_inert (cfg : HomeyMCPConfig)
    (hdemo : cfg.offline_mode = true ∨ cfg.demo_mode = true) :
    (∀ st now fetch, get_devices cfg st now fetch = (.ok demoDevices, st, [])) ∧
    (∀ st device_id capability value oracle,
      (validate_capability_value capability value).1 = true →
      set_capability_value cfg st device_id capability value oracle =
        (.ok true, st, [])) ∧
    (∀ st device_id capability value oracle now fetch d,
      (validate_capability_value capability value).1 = true →
      get_device cfg
        (set_capability_value cfg st device_id capability value oracle).2.1
        now fetch d = get_device cfg st now fetch d) := by
  have hflag : (cfg.offline_mode || cfg.demo_mode) = true := by
    rcases hdemo with h | h <;> simp [h]
  have hget : ∀ st now fetch,
      get_devices cfg st now fetch = (.ok demoDevices, st, []) := by
    intro st now fetch
    unfold get_devices
    rw [if_pos hflag]
  have hset : ∀ st device_id capability value oracle,
      (validate_capability_value capability value).1 = true →
      set_capability_value cfg st device_id capability value oracle =
        (.ok true, st, []) := by
    intro st device_id capability value oracle hv
    rcases hveq : validate_capability_value capability value with ⟨b, n, note⟩
    rw [hveq] at hv
    simp only at hv
    unfold set_capability_value
    rw [hveq]
    simp only [hv]
    rw [if_neg (by simp), if_pos hflag]
  refine ⟨hget, hset, ?_⟩
  intro st device_id capability value oracle now fetch d hv
  rw [hset st device_id capability value oracle hv]

/-- Witness for `demo_mode_state_inert`: a demo-mode write of
`onoff=true` to `light1` leaves the (empty-cache) state alone, and a
subsequent `get_device` still shows the fixture. -/
theorem demo_mode_state_inert_witness :
    get_devices cfgDemo stEmpty 0 (.ok []) = (.ok demoDevices, stEmpty, []) ∧
    set_capability_value cfgDemo stEmpty "light1" "onoff" (.bool true) ⟨200, 200⟩ =
      (.ok true, stEmpty, []) ∧
    get_device cfgDemo
      (set_capability_value cfgDemo stEmpty "light1" "onoff" (.bool true)
        ⟨200, 200⟩).2.1 0 (.ok []) "light1" =
      get_device cfgDemo stEmpty 0 (.ok []) "light1" :=
  ⟨(demo_mode_state_inert cfgDemo (Or.inr rfl)).1 stEmpty 0 (.ok []),
   (demo_mode_state_inert cfgDemo (Or.inr rfl)).2.1 stEmpty "light1" "onoff"
      (.bool true) ⟨200, 200⟩ rfl,
   (demo_mode_state_inert cfgDemo (Or.inr rfl)).2.2 stEmpty "light1" "onoff"
      (.bool true) ⟨200, 200⟩ 0 (.ok []) "light1" rfl⟩

/-! ## Capability writes (C2) -/

/-- C2: `set_capability_value` runs the validator before any other
effect — on rejection it raises the validation error with no HTTP
request and the cache and timestamp untouched; on acceptance in
demo/offline mode it returns success with no HTTP I/O. -/
theorem set_capability_validates_first (cfg : HomeyMCPConfig) (st : ClientState)
    (device_id capability : String) (value : PyValue) (oracle : SetOracle) :
    ((validate_capability_value capability value).1 = false →
      set_capability_value cfg st device_id capability value oracle =
        (.error ("Invalid capability value: "
            ++ (validate_capability_value capability value).2.2), st, [])) ∧
    ((validate_capability_value capability value).1 = true →
      (cfg.offline_mode || cfg.demo_mode) = true →
      set_capability_value cfg st device_id capability value oracle =
        (.ok true, st, [])) := by
  rcases hveq : validate_capability_value capability value with ⟨b, n, note⟩
  constructor
  · intro hv
    simp only at hv
    subst hv
    simp [set_capability_value, hveq]
  · intro hv hflag
    simp only at hv
    subst hv
    simp [set_capability_value, hveq, hflag]

/-- Witness for `set_capability_validates_first`: a rejected boolean
(`onoff := "banana"`) raises without I/O or state change, and an
accepted one in demo mode succeeds without I/O. -/
theorem set_capability_validates_first_witness :
    set_capability_value cfgLive stDemoCache "light1" "onoff" (.str "banana")
        ⟨200, 200⟩ =
      (.error ("Invalid capability value: "
          ++ (validate_capability_value "onoff" (.str "banana")).2.2),
       stDemoCache, []) ∧
    set_capability_value cfgDemo stDemoCache "light1" "onoff" (.str "ON")
        ⟨200, 200⟩ = (.ok true, stDemoCache, []) :=
  ⟨(set_capability_validates_first cfgLive stDemoCache "light1" "onoff"
      (.str "banana") ⟨200, 200⟩).1 (by decide),
   (set_capability_validates_first cfgDemo stDemoCache "light1" "onoff"
      (.str "ON") ⟨200, 200⟩).2 (by decide) rfl⟩

/-! ## Capability patch isolation (C6) -/

theorem lookup_cons_self {β : Type} (a : String) (b : β) (l : List (String × β)) :
    List.lookup a ((a, b) :: l) = some b := by
  simp [List.lookup]

theorem lookup_cons_ne {β : Type} (a j : String) (b : β) (l : List (String × β))
    (h : ¬j = a) : List.lookup j ((a, b) :: l) = List.lookup j l := by
  have hb : (j == a) = false := beq_eq_false_iff_ne.mpr h
  simp [List.lookup, hb]

theorem lookup_map_update {β : Type} (m : List (String × β)) (k j : String)
    (g : β → β) :
    (m.map fun p => if p.1 = k then (p.1, g p.2) else p).lookup j =
      if j = k then (m.lookup j).map g else m.lookup j := by
  induction m with
  | nil => simp [List.lookup]
  | cons p rest ih =>
      obtain ⟨a, b⟩ := p
      simp only [List.map_cons]
      by_cases hak : a = k
      · subst hak
        rw [if_pos rfl]
        by_cases hja : j = a
        · subst hja
          rw [lookup_cons_self, lookup_cons_self, if_pos rfl]
          rfl
        · rw [lookup_cons_ne _ _ _ _ hja, lookup_cons_ne _ _ _ _ hja, ih]
      · rw [if_neg hak]
        by_cases hja : j = a
        · subst hja
          rw [lookup_cons_self, lookup_cons_self, if_neg (fun hjk => hak hjk)]
        · rw [lookup_cons_ne _ _ _ _ hja, lookup_cons_ne _ _ _ _ hja, ih]

theorem lookup_ne_nil {β : Type} (m : List (String × β)) (k : String) (b : β)
    (h : m.lookup k = some b) : m ≠ [] := by
  intro hnil
  rw [hnil] at h
  simp [List.lookup] at h

theorem lookup_patchMap_self (m : DeviceMap) (did cap : String) (v : PyValue) :
    (m.map fun p =>
        if p.1 = did then (p.1, patchDevice p.2 cap v) else p).lookup did =
      (m.lookup did).map (fun x => patchDevice x cap v) := by
  have h := lookup_map_update m did did (fun x => patchDevice x cap v)
  simpa using h

theorem lookup_patchMap_other (m : DeviceMap) (did cap j : String) (v : PyValue)
    (h : j ≠ did) :
    (m.map fun p =>
        if p.1 = did then (p.1, patchDevice p.2 cap v) else p).lookup j =
      m.lookup j := by
  have h2 := lookup_map_update m did j (fun x => patchDevice x cap v)
  simpa [h] using h2

theorem lookup_capPatch_self (l : List (String × CapabilityState)) (cap : String)
    (v : PyValue) :
    (l.map fun c =>
        if c.1 = cap then (c.1, { c.2 with value := v }) else c).lookup cap =
      (l.lookup cap).map (fun cs => { cs with value := v }) := by
  have h := lookup_map_update l cap cap (fun cs => { cs with value := v })
  simpa using h

theorem lookup_capPatch_other (l : List (String × CapabilityState)) (cap j : String)
    (v : PyValue) (h : j ≠ cap) :
    (l.map fun c =>
        if c.1 = cap then (c.1, { c.2 with value := v }) else c).lookup j =
      l.lookup j := by
  have h2 := lookup_map_update l cap j (fun cs => { cs with value := v })
  simpa [h] using h2

theorem patchDevice_capabilitiesObj (d : Device) (cap : String) (v : PyValue) :
    (patchDevice d cap v).capabilitiesObj =
      d.capabilitiesObj.map fun c =>
        if c.1 = cap then (c.1, { c.2 with value := v }) else c := rfl

/-- C6: a successful live-mode capability write patches exactly the
written device's written capability value in the cache: result is
success, the cache timestamp and every other device are unchanged, the
written device keeps all its other capabilities and fields with only
the one capability's value replaced by the validated value, and a
subsequent within-TTL `get_device` returns exactly that patched
device. -/
theorem set_capability_patch_isolation (cfg : HomeyMCPConfig) (st : ClientState)
    (device_id capability : String) (value n : PyValue) (note : String)
    (oracle : SetOracle) (d : Device) (cs : CapabilityState)
    (hoff : cfg.offline_mode = false) (hdemo : cfg.demo_mode = false)
    (hval : validate_capability_value capability value = (true, n, note))
    (hok : is2xx oracle.finalStatus = true)
    (hdev : st.device_cache.lookup device_id = some d)
    (hcap : d.capabilitiesObj.lookup capability = some cs) :
    (set_capability_value cfg st device_id capability value oracle).1 =
      .ok true ∧
    (set_capability_value cfg st device_id capability value
        oracle).2.1.cache_timestamp = st.cache_timestamp ∧
    (∀ d', d' ≠ device_id →
      (set_capability_value cfg st device_id capability value
          oracle).2.1.device_cache.lookup d' = st.device_cache.lookup d') ∧
    (set_capability_value cfg st device_id capability value
        oracle).2.1.device_cache.lookup device_id =
      some (patchDevice d capability n) ∧
    (patchDevice d capability n).capabilitiesObj.lookup capability =
      some ⟨n, cs.title⟩ ∧
    (∀ c', c' ≠ capability →
      (patchDevice d capability n).capabilitiesObj.lookup c' =
        d.capabilitiesObj.lookup c') ∧
    (patchDevice d capability n).name = d.name ∧
    (patchDevice d capability n).devClass = d.devClass ∧
    (patchDevice d capability n).zoneName = d.zoneName ∧
    (patchDevice d capability n).available = d.available ∧
    (∀ now fetch, now - st.cache_timestamp < cfg.cache_ttl →
      (get_device cfg
        (set_capability_value cfg st device_id capability value oracle).2.1
        now fetch device_id).1 = .ok (patchDevice d capability n)) := by
  have hstate : (set_capability_value cfg st device_id capability value
      oracle).2.1 =
      ⟨patchCache st.device_cache device_id capability n, st.cache_timestamp⟩ := by
    simp [set_capability_value, hval, hoff, hdemo, hok]
  have hres : (set_capability_value cfg st device_id capability value
      oracle).1 = .ok true := by
    simp [set_capability_value, hval, hoff, hdemo, hok]
  have hpc : patchCache st.device_cache device_id capability n =
      st.device_cache.map fun p =>
        if p.1 = device_id then (p.1, patchDevice p.2 capability n) else p := by
    unfold patchCache
    simp [hdev, hcap]
  have hself : (patchCache st.device_cache device_id capability n).lookup
      device_id = some (patchDevice d capability n) := by
    rw [hpc, lookup_patchMap_self, hdev]
    rfl
  have hcapnew : (patchDevice d capability n).capabilitiesObj.lookup capability =
      some ⟨n, cs.title⟩ := by
    rw [patchDevice_capabilitiesObj, lookup_capPatch_self, hcap]
    rfl
  refine ⟨hres, by rw [hstate], ?_, by rw [hstate]; exact hself, hcapnew,
    ?_, rfl, rfl, rfl, rfl, ?_⟩
  · intro d' hd'
    rw [hstate]
    exact hpc ▸ lookup_patchMap_other st.device_cache device_id capability d' n hd'
  · intro c' hc'
    rw [patchDevice_capabilitiesObj, lookup_capPatch_other _ _ _ _ hc']
  · intro now fetch hfresh
    have hgd := get_devices_fresh_cache cfg
      ⟨patchCache st.device_cache device_id capability n, st.cache_timestamp⟩
      now fetch hoff hdemo (lookup_ne_nil _ _ _ hself) (by simpa using hfresh)
    rw [hstate]
    simp [get_device, hgd, hself]

/-- Witness for `set_capability_patch_isolation`: writing `dim := 0.5`
to the cached demo `light1` patches only that capability and a fresh
read shows it. -/
theorem set_capability_patch_isolation_witness :
    (set_capability_value cfgLive stDemoCache "light1" "dim" (.float oneHalf)
        ⟨200, 200⟩).1 = .ok true ∧
    (set_capability_value cfgLive stDemoCache "light1" "dim" (.float oneHalf)
        ⟨200, 200⟩).2.1.cache_timestamp = stDemoCache.cache_timestamp ∧
    (∀ d', d' ≠ "light1" →
      (set_capability_value cfgLive stDemoCache "light1" "dim" (.float oneHalf)
          ⟨200, 200⟩).2.1.device_cache.lookup d' =
        stDemoCache.device_cache.lookup d') ∧
    (∀ now fetch, now - stDemoCache.cache_timestamp < cfgLive.cache_ttl →
      (get_device cfgLive
        (set_capability_value cfgLive stDemoCache "light1" "dim"
          (.float oneHalf) ⟨200, 200⟩).2.1 now fetch "light1").1 =
        .ok (patchDevice ((stDemoCache.device_cache.lookup "light1").getD
          ⟨"", "", "", false, []⟩) "dim" (.float oneHalf))) := by
  have h := set_capability_patch_isolation cfgLive stDemoCache "light1" "dim"
    (.float oneHalf) (.float oneHalf) "" ⟨200, 200⟩
    ((stDemoCache.device_cache.lookup "light1").getD ⟨"", "", "", false, []⟩)
    ⟨.float (8 / 10), "Brightness"⟩ rfl rfl (by decide) rfl rfl rfl
  exact ⟨h.1, h.2.1, h.2.2.1, h.2.2.2.2.2.2.2.2.2.2⟩

/-! ## Flow trigger variant probing (C4) -/

theorem tryEndpoints_cons_2xx (oracle : String → PostOutcome) (e : String)
    (rest : List String) (last : Option FlowError) (c : ℕ)
    (h : oracle e = .status c) (hc : is2xx c = true) :
    tryEndpoints oracle (e :: rest) last = (.ok true, [e]) := by
  conv_lhs => unfold tryEndpoints
  simp [h, hc]

theorem tryEndpoints_cons_404 (oracle : String → PostOutcome) (e : String)
    (rest : List String) (last : Option FlowError)
    (h : oracle e = .status 404) :
    tryEndpoints oracle (e :: rest) last =
      ((tryEndpoints oracle rest (some (.httpStatus e 404))).1,
       e :: (tryEndpoints oracle rest (some (.httpStatus e 404))).2) := by
  conv_lhs => unfold tryEndpoints
  simp [h, is2xx]

theorem tryEndpoints_cons_err (oracle : String → PostOutcome) (e : String)
    (rest : List String) (last : Option FlowError) (c : ℕ)
    (h : oracle e = .status c) (hc : is2xx c = false) (h404 : c ≠ 404) :
    tryEndpoints oracle (e :: rest) last = (.error (.httpStatus e c), [e]) := by
  conv_lhs => unfold tryEndpoints
  simp [h, hc, h404]

theorem tryEndpoints_nil (oracle : String → PostOutcome) (err : FlowError) :
    tryEndpoints oracle [] (some err) = (.error err, []) := rfl

/-- C4: in live mode `trigger_flow` posts to the four variant paths in
order (`/trigger`, `/start`, `/run`, trailing-slash root), returns
success at the first 2xx without touching later variants, moves to the
next variant on a 404, raises immediately on any other HTTP status
error, and when all four answer 404 raises the error of the last
variant; the second component lists the paths actually posted to. -/
theorem trigger_flow_spec (cfg : HomeyMCPConfig) (fid : String)
    (oracle : String → PostOutcome) (c1 c2 c3 c4 : ℕ)
    (hoff : cfg.offline_mode = false) (hdemo : cfg.demo_mode = false)
    (h1 : oracle ("/api/manager/flow/flow/" ++ fid ++ "/trigger") = .status c1)
    (h2 : oracle ("/api/manager/flow/flow/" ++ fid ++ "/start") = .status c2)
    (h3 : oracle ("/api/manager/flow/flow/" ++ fid ++ "/run") = .status c3)
    (h4 : oracle ("/api/manager/flow/flow/" ++ fid ++ "/") = .status c4) :
    (is2xx c1 = true →
      trigger_flow cfg fid oracle =
        (.ok true, ["/api/manager/flow/flow/" ++ fid ++ "/trigger"])) ∧
    (is2xx c1 = false → c1 ≠ 404 →
      trigger_flow cfg fid oracle =
        (.error (.httpStatus ("/api/manager/flow/flow/" ++ fid ++ "/trigger") c1),
         ["/api/manager/flow/flow/" ++ fid ++ "/trigger"])) ∧
    (c1 = 404 → is2xx c2 = true →
      trigger_flow cfg fid oracle =
        (.ok true,
         ["/api/manager/flow/flow/" ++ fid ++ "/trigger",
          "/api/manager/flow/flow/" ++ fid ++ "/start"])) ∧
    (c1 = 404 → is2xx c2 = false → c2 ≠ 404 →
      trigger_flow cfg fid oracle =
        (.error (.httpStatus ("/api/manager/flow/flow/" ++ fid ++ "/start") c2),
         ["/api/manager/flow/flow/" ++ fid ++ "/trigger",
          "/api/manager/flow/flow/" ++ fid ++ "/start"])) ∧
    (c1 = 404 → c2 = 404 → is2xx c3 = true →
      trigger_flow cfg fid oracle =
        (.ok true,
         ["/api/manager/flow/flow/" ++ fid ++ "/trigger",
          "/api/manager/flow/flow/" ++ fid ++ "/start",
          "/api/manager/flow/flow/" ++ fid ++ "/run"])) ∧
    (c1 = 404 → c2 = 404 → is2xx c3 = false → c3 ≠ 404 →
      trigger_flow cfg fid oracle =
        (.error (.httpStatus ("/api/manager/flow/flow/" ++ fid ++ "/run") c3),
         ["/api/manager/flow/flow/" ++ fid ++ "/trigger",
          "/api/manager/flow/flow/" ++ fid ++ "/start",
          "/api/manager/flow/flow/" ++ fid ++ "/run"])) ∧
    (c1 = 404 → c2 = 404 → c3 = 404 → is2xx c4 = true →
      trigger_flow cfg fid oracle =
        (.ok true,
         ["/api/manager/flow/flow/" ++ fid ++ "/trigger",
          "/api/manager/flow/flow/" ++ fid ++ "/start",
          "/api/manager/flow/flow/" ++ fid ++ "/run",
          "/api/manager/flow/flow/" ++ fid ++ "/"])) ∧
    (c1 = 404 → c2 = 404 → c3 = 404 → is2xx c4 = false → c4 ≠ 404 →
      trigger_flow cfg fid oracle =
        (.error (.httpStatus ("/api/manager/flow/flow/" ++ fid ++ "/") c4),
         ["/api/manager/flow/flow/" ++ fid ++ "/trigger",
          "/api/manager/flow/flow/" ++ fid ++ "/start",
          "/api/manager/flow/flow/" ++ fid ++ "/run",
          "/api/manager/flow/flow/" ++ fid ++ "/"])) ∧
    (c1 = 404 → c2 = 404 → c3 = 404 → c4 = 404 →
      trigger_flow cfg fid oracle =
        (.error (.httpStatus ("/api/manager/flow/flow/" ++ fid ++ "/") 404),
         ["/api/manager/flow/flow/" ++ fid ++ "/trigger",
          "/api/manager/flow/flow/" ++ fid ++ "/start",
          "/api/manager/flow/flow/" ++ fid ++ "/run",
          "/api/manager/flow/flow/" ++ fid ++ "/"])) := by
  have hlive : trigger_flow cfg fid oracle =
      tryEndpoints oracle (flowEndpoints fid) none := by
    unfold trigger_flow
    rw [if_neg (by simp [hoff, hdemo])]
  have h404 : is2xx 404 = false := rfl
  refine ⟨?_, ?_, ?_, ?_, ?_, ?_, ?_, ?_, ?_⟩
  · intro hc1
    rw [hlive]
    unfold flowEndpoints
    rw [tryEndpoints_cons_2xx oracle _ _ _ c1 h1 hc1]
  · intro hc1 hn1
    rw [hlive]
    unfold flowEndpoints
    rw [tryEndpoints_cons_err oracle _ _ _ c1 h1 hc1 hn1]
  · intro e1 hc2
    subst e1
    rw [hlive]
    unfold flowEndpoints
    rw [tryEndpoints_cons_404 oracle _ _ _ h1,
      tryEndpoints_cons_2xx oracle _ _ _ c2 h2 hc2]
  · intro e1 hc2 hn2
    subst e1
    rw [hlive]
    unfold flowEndpoints
    rw [tryEndpoints_cons_404 oracle _ _ _ h1,
      tryEndpoints_cons_err oracle _ _ _ c2 h2 hc2 hn2]
  · intro e1 e2 hc3
    subst e1; subst e2
    rw [hlive]
    unfold flowEndpoints
    rw [tryEndpoints_cons_404 oracle _ _ _ h1,
      tryEndpoints_cons_404 oracle _ _ _ h2,
      tryEndpoints_cons_2xx oracle _ _ _ c3 h3 hc3]
  · intro e1 e2 hc3 hn3
    subst e1; subst e2
    rw [hlive]
    unfold flowEndpoints
    rw [tryEndpoints_cons_404 oracle _ _ _ h1,
      tryEndpoints_cons_404 oracle _ _ _ h2,
      tryEndpoints_cons_err oracle _ _ _ c3 h3 hc3 hn3]
  · intro e1 e2 e3 hc4
    subst e1; subst e2; subst e3
    rw [hlive]
    unfold flowEndpoints
    rw [tryEndpoints_cons_404 oracle _ _ _ h1,
      tryEndpoints_cons_404 oracle _ _ _ h2,
      tryEndpoints_cons_404 oracle _ _ _ h3,
      tryEndpoints_cons_2xx oracle _ _ _ c4 h4 hc4]
  · intro e1 e2 e3 hc4 hn4
    subst e1; subst e2; subst e3
    rw [hlive]
    unfold flowEndpoints
    rw [tryEndpoints_cons_404 oracle _ _ _ h1,
      tryEndpoints_cons_404 oracle _ _ _ h2,
      tryEndpoints_cons_404 oracle _ _ _ h3,
      tryEndpoints_cons_err oracle _ _ _ c4 h4 hc4 hn4]
  · intro e1 e2 e3 e4
    subst e1; subst e2; subst e3; subst e4
    rw [hlive]
    unfold flowEndpoints
    rw [tryEndpoints_cons_404 oracle _ _ _ h1,
      tryEndpoints_cons_404 oracle _ _ _ h2,
      tryEndpoints_cons_404 oracle _ _ _ h3,
      tryEndpoints_cons_404 oracle _ _ _ h4,
      tryEndpoints_nil]

/-- Witness for `trigger_flow_spec`: for flow `f1`, with the first
three variants answering 404 and the trailing-slash root answering
200, the trigger succeeds after posting to exactly the four variants
in order. -/
theorem trigger_flow_spec_witness :
    trigger_flow cfgLive "f1"
      (fun p => if p = "/api/manager/flow/flow/f1/" then .status 200
        else .status 404) =
      (.ok true,
       ["/api/manager/flow/flow/f1/trigger",
        "/api/manager/flow/flow/f1/start",
        "/api/manager/flow/flow/f1/run",
        "/api/manager/flow/flow/f1/"]) :=
  (trigger_flow_spec cfgLive "f1"
      (fun p => if p = "/api/manager/flow/flow/f1/" then .status 200
        else .status 404)
      404 404 404 200 rfl rfl (by decide) (by decide) (by decide) (by decide)
    ).2.2.2.2.2.2.1 rfl rfl rfl rfl

/-! ## Tool-layer error boundary (C9) -/

/-- C9: the cited tool handlers are total — every call returns exactly
one `TextContent` (no exception crosses the transport boundary), and
whenever an underlying step fails (client call, flow lookup data,
argument extraction), the returned text is the handler's fixed failure
prefix followed by the exception text. -/
theorem tool_handlers_error_boundary :
    (∀ devicesRes, ∃ t, handle_get_devices devicesRes = [t]) ∧
    (∀ e, handle_get_devices (.error e) =
      [⟨"text", "Error getting devices: " ++ e⟩]) ∧
    (∀ arguments flowsRes triggerRes, ∃ t,
      handle_trigger_flow arguments flowsRes triggerRes = [t]) ∧
    (∀ arguments fid e triggerRes, arguments.lookup "flow_id" = some fid →
      handle_trigger_flow arguments (.error e) triggerRes =
        [⟨"text", "❌ Fout bij starten flow: " ++ e⟩]) ∧
    (∀ arguments fid flows flow e, arguments.lookup "flow_id" = some fid →
      flows.lookup fid = some flow →
      handle_trigger_flow arguments (.ok flows) (.error e) =
        [⟨"text", "❌ Fout bij starten flow: " ++ e⟩]) ∧
    (∀ arguments flowsRes triggerRes, arguments.lookup "flow_id" = none →
      handle_trigger_flow arguments flowsRes triggerRes =
        [⟨"text", "❌ Fout bij starten flow: " ++ "KeyError: flow_id"⟩]) := by
  refine ⟨?_, ?_, ?_, ?_, ?_, ?_⟩
  · intro devicesRes
    cases devicesRes <;> exact ⟨_, rfl⟩
  · intro e
    rfl
  · intro arguments flowsRes triggerRes
    unfold handle_trigger_flow
    repeat' split
    all_goals exact ⟨_, rfl⟩
  · intro arguments fid e triggerRes harg
    unfold handle_trigger_flow
    rw [harg]
  · intro arguments fid flows flow e harg hflow
    unfold handle_trigger_flow
    rw [harg]
    simp only [hflow]
  · intro arguments flowsRes triggerRes harg
    unfold handle_trigger_flow
    rw [harg]

/-- Witness for `tool_handlers_error_boundary`: a failing `get_flows`
call inside `trigger_flow` handling comes back as a single prefixed
error text. -/
theorem tool_handlers_error_boundary_witness :
    handle_trigger_flow [("flow_id", "f1")] (.error "Connection lost")
        (.ok true) =
      [⟨"text", "❌ Fout bij starten flow: " ++ "Connection lost"⟩] :=
  tool_handlers_error_boundary.2.2.2.1 [("flow_id", "f1")] "f1"
    "Connection lost" (.ok true) rfl

end HomeyMCP
